import Mathlib

/-!
# SiteSurgeon — verification of the issue pipeline against its specification

Shallow embedding of the SiteSurgeon backend (TypeScript) in Lean 4:

* `src/backend/src/services/aiService.ts`    — classification / file ranking
* `src/backend/src/services/aiClassifier.ts` — the Classification Gate wrapper
* `src/backend/src/sandbox/sandboxManager.ts`— workspace lifecycle primitives
* `src/backend/src/agents/codingAgent.ts`    — fix synthesis agent
* `src/backend/src/services/issueProcessor.ts` — the pipeline orchestrator

External collaborators (the Groq/LLM HTTP calls, the E2B container, GitHub,
SMTP) are modelled as oracle inputs: each external call's outcome is a field
of `PipelineEnv` (an `Except` for calls that can raise a transport error).
The orchestrator itself is transcribed control-flow-faithfully, including
the `try`/`finally` ordering around sandbox destruction and every commit to
the issue store, which is recorded as an event trace.
-/

namespace SiteSurgeon

/-! ## JavaScript string primitives

The source is TypeScript; its string operations (`trim`, `toUpperCase`,
`startsWith`, `endsWith`, `includes`, `slice`, `split`) are JS builtins.
They are given explicit executable semantics here over the character list
of a `String` (all repository usages are on ASCII text, where JS UTF-16
code-unit indexing and character indexing agree). -/

namespace JsStr

/-- JS `String.prototype.toUpperCase` (ASCII case mapping suffices here). -/
def toUpper (s : String) : String := ⟨s.data.map Char.toUpper⟩

/-- JS `String.prototype.trim`: strip leading and trailing whitespace. -/
def trim (s : String) : String :=
  ⟨((s.data.dropWhile Char.isWhitespace).reverse.dropWhile
      Char.isWhitespace).reverse⟩

/-- JS `s.startsWith(p)`. -/
def startsWith (s p : String) : Bool := p.data.isPrefixOf s.data

/-- JS `s.endsWith(p)`. -/
def endsWith (s p : String) : Bool := p.data.isSuffixOf s.data

/-- Whether `needle` occurs as a contiguous run inside `hay`. -/
def listHas : List Char → List Char → Bool
  | [], needle => needle.isEmpty
  | hay@(_ :: t), needle => needle.isPrefixOf hay || listHas t needle

/-- JS `s.includes(sub)`. -/
def includes (s sub : String) : Bool := listHas s.data sub.data

/-- JS `s.slice(0, n)`: the first `n` characters. -/
def take (s : String) (n : Nat) : String := ⟨s.data.take n⟩

/-- JS `s.slice(n)`: drop the first `n` characters. -/
def drop (s : String) (n : Nat) : String := ⟨s.data.drop n⟩

/-- JS `s.length` (character count; ASCII assumption). -/
def strLength (s : String) : Nat := s.data.length

/-- Remove a final occurrence of `suf` (an anchored `replace(/suf$/, '')`). -/
def stripSuffix (s suf : String) : String :=
  if endsWith s suf then ⟨s.data.take (s.data.length - suf.data.length)⟩ else s

/-- Helper for `splitOnChar`: `acc` holds the current chunk reversed. -/
def splitOnCharAux (c : Char) : List Char → List Char → List String
  | [], acc => [⟨acc.reverse⟩]
  | x :: xs, acc =>
      if x = c then ⟨acc.reverse⟩ :: splitOnCharAux c xs []
      else splitOnCharAux c xs (x :: acc)

/-- JS `s.split(c)` for a one-character separator. -/
def splitOnChar (c : Char) (s : String) : List String :=
  splitOnCharAux c s.data []

end JsStr

-- ── utils/types.ts ───────────────────────────────────────────────────────────

/-- `Severity` from `utils/types.ts`. -/
inductive Severity
  | critical | high | medium | low
deriving DecidableEq, Repr

/-- `AiDecision` from `utils/types.ts`. -/
inductive AiDecision
  | AUTOMATED | MANUAL
deriving DecidableEq, Repr

/-- `IssueStatus` from `utils/types.ts`. -/
inductive IssueStatus
  | received | classifying | sandboxing | fixing
  | pr_opened | merged | notified | failed
deriving DecidableEq, Repr

/-- The `Issue` record from `utils/types.ts` (timestamps kept as opaque
strings; optional fields are `Option`s, `undefined` = `none`). -/
structure Issue where
  id : String
  title : String
  description : String
  stepsToReproduce : String
  severity : Severity
  repoUrl : String
  status : IssueStatus
  aiDecision : Option AiDecision := none
  aiReason : Option String := none
  sandboxId : Option String := none
  sandboxLogs : List String := []
  branchName : Option String := none
  prUrl : Option String := none
  patchSummary : Option String := none
  commitMessage : Option String := none
  createdAt : String := ""
  updatedAt : String := ""
deriving DecidableEq, Repr

/-- `ClassificationResult` from `utils/types.ts`. -/
structure ClassificationResult where
  decision : AiDecision
  reason : String
  confidence : Nat
deriving DecidableEq, Repr

/-- `AgentResult` from `utils/types.ts`. -/
structure AgentResult where
  success : Bool
  patch : String
  commitMessage : String
  filesChanged : List String
  logs : List String
  error : Option String := none
deriving DecidableEq, Repr

/-- `PrResult` from `utils/types.ts`. -/
structure PrResult where
  prUrl : String
  prNumber : Nat
  branchName : String
  merged : Bool
deriving DecidableEq, Repr

-- ── services/aiService.ts : classifyIssue ────────────────────────────────────

/-- String rendering of a decision, as TS template interpolation prints it. -/
def AiDecision.render : AiDecision → String
  | .AUTOMATED => "AUTOMATED"
  | .MANUAL => "MANUAL"

/-- `aiService.classifyIssue` (`services/aiService.ts`, lines 30–67): the raw
collaborator call either raises (transport error, modelled `.error msg`) or
returns the reply text; the reply is trimmed, upper-cased, and mapped to
`AUTOMATED` iff it starts with `"AUTOMATED"`, else `MANUAL`. A raised
transport error propagates to the caller (`aiService.classifyIssue` has no
catch). -/
def aiServiceClassify (resp : Except String String) : Except String AiDecision :=
  match resp with
  | .error e => .error e
  | .ok content =>
      let raw := JsStr.toUpper (JsStr.trim content)
      .ok (if JsStr.startsWith raw "AUTOMATED" then .AUTOMATED else .MANUAL)

-- ── services/aiClassifier.ts : classifyIssue (the Classification Gate) ───────

/-- `aiClassifier.classifyIssue` (`services/aiClassifier.ts`, lines 13–43):
wraps `aiService.classifyIssue`. On success it returns the decision with
reason text and confidence 85; if the service call raised, the catch block
returns decision `AUTOMATED`, reason
`"AI classifier unavailable; defaulting to automated pipeline."`,
confidence 50. The wrapper itself never raises (it is total here). -/
def aiClassifierClassify (svcResult : Except String AiDecision)
    (model : String) : ClassificationResult :=
  match svcResult with
  | .ok d =>
      { decision := d
        reason := "AI (" ++ model ++ ") classified this as " ++ d.render ++ "."
        confidence := 85 }
  | .error _ =>
      { decision := .AUTOMATED
        reason := "AI classifier unavailable; defaulting to automated pipeline."
        confidence := 50 }

/-- The Classification Gate as the pipeline calls it: the composition of the
wrapper with the service call, for a given raw collaborator outcome. -/
def classificationGate (resp : Except String String) (model : String) :
    ClassificationResult :=
  aiClassifierClassify (aiServiceClassify resp) model

-- ── sandbox/sandboxManager.ts ────────────────────────────────────────────────

/-- `repoName` (`sandbox/sandboxManager.ts`, lines 31–34): strip a trailing
`.git`, split on `/`, take the last part, or `"repo"` when it is empty. -/
def repoName (repoUrl : String) : String :=
  let parts := JsStr.splitOnChar '/' (JsStr.stripSuffix repoUrl ".git")
  let last := parts.getLastD ""
  if last = "" then "repo" else last

/-- `toCloneUrl` (`sandbox/sandboxManager.ts`, lines 36–38): strip a trailing
slash, strip a trailing `.git`, then append `.git`. -/
def toCloneUrl (repoUrl : String) : String :=
  JsStr.stripSuffix (JsStr.stripSuffix repoUrl "/") ".git" ++ ".git"

/-- The `SandboxContext` of `sandbox/sandboxManager.ts` (the live `Sandbox`
handle is external and appears only through the oracle outcomes). -/
structure SandboxContext where
  sandboxId : String
  workDir : String
  repoDir : String
  logs : List String
deriving DecidableEq, Repr

/-- Log line pushed by `run` on a zero exit (line 58). -/
def runLogOk (cmd : String) : String := "[run] " ++ JsStr.take cmd 80 ++ ": OK"

/-- Log line pushed by `run` on a non-zero exit (line 54). -/
def runLogExit (cmd : String) (code : Nat) : String :=
  "[run] " ++ JsStr.take cmd 80 ++ ": EXIT " ++ toString code

/-- The message of the error `run` throws on a non-zero exit (line 55). -/
def runErrMsg (cmd : String) (code : Nat) (output : String) : String :=
  "Command failed (exit " ++ toString code ++ "): " ++ JsStr.take cmd 80
    ++ "\n" ++ JsStr.take output 500

/-- `createSandbox` (lines 64–81), applied to the outcome of the external
`Sandbox.create` call (`.ok sandboxId`, or `.error` when the E2B key is
missing or container creation raised). -/
def createSandbox (repoUrl : String) (outcome : Except String String) :
    Except String SandboxContext :=
  match outcome with
  | .error e => .error e
  | .ok sandboxId =>
      .ok { sandboxId
            workDir := "/home/user"
            repoDir := "/home/user" ++ "/" ++ repoName repoUrl
            logs := ["E2B sandbox created: " ++ sandboxId] }

/-- `cloneRepo` (lines 83–89): pushes the `Cloning …` line, then `run`s
`git clone --depth 1`; the run outcome decides between an enriched context
and the thrown error message (non-zero exit code plus captured output). -/
def cloneRepo (ctx : SandboxContext) (repoUrl : String)
    (runOutcome : Except (Nat × String) Unit) : Except String SandboxContext :=
  let cloneUrl := toCloneUrl repoUrl
  let cmd := "git clone --depth 1 \"" ++ cloneUrl ++ "\" \"" ++ ctx.repoDir ++ "\""
  let ctx := { ctx with logs := ctx.logs ++ ["Cloning " ++ cloneUrl ++ "..."] }
  match runOutcome with
  | .ok _ => .ok { ctx with logs := ctx.logs ++ [runLogOk cmd] }
  | .error (code, output) => .error (runErrMsg cmd code output)

/-- Manifest detection of `installDependencies` (lines 100–105): the first
matching lockfile/manifest name in the `ls` output wins, JS lockfiles
before Python manifests. -/
def detectInstallCmd (files : String) : Option String :=
  if JsStr.includes files "package-lock.json" then
    some "npm install --legacy-peer-deps"
  else if JsStr.includes files "yarn.lock" then
    some "yarn install --non-interactive"
  else if JsStr.includes files "pnpm-lock.yaml" then
    some "pnpm install --frozen-lockfile"
  else if JsStr.includes files "requirements.txt" then
    some "pip install -r requirements.txt"
  else if JsStr.includes files "pyproject.toml" then
    some "pip install ."
  else none

/-- `installDependencies` (lines 91–121). `lsOutput` is the stdout of the
`ls` probe; `runResult` the exit of the chosen install command. `run`
throws on a non-zero exit (after pushing its EXIT log line); the `catch`
turns the thrown message into a warning line, so every branch is `.ok`
(the function returns the updated log list, never an error). -/
def installDependencies (lsOutput : String)
    (runResult : Except (Nat × String) Unit) (logs0 : List String) :
    Except String (List String) :=
  match detectInstallCmd lsOutput with
  | none => .ok (logs0 ++ ["[install] No package manager detected – skipping."])
  | some cmd =>
      let logs := logs0 ++ ["[install] Running: " ++ cmd]
      match (match runResult with
             | .ok _ => Except.ok (logs ++ [runLogOk cmd, "[install] Done."])
             | .error (code, output) =>
                 Except.error (logs ++ [runLogExit cmd code],
                   runErrMsg cmd code output)) with
      | .ok l => .ok l
      | .error (l, msg) =>
          .ok (l ++ ["[install] Warning: " ++ JsStr.take msg 300])

/-- `listRepoFiles` (lines 128–144). `findOut` models the line sequence the
`find` traversal (with its fixed exclusion set) would print; `| head -200`
keeps the first 200 lines, empty lines are dropped (`filter(Boolean)`),
and the `repoDir + '/'` prefix is stripped (`slice(repoDir.length + 1)`). -/
def listRepoFiles (repoDir : String) (findOut : List String) : List String :=
  let lines := (findOut.take 200).filter (fun l => l ≠ "")
  lines.map (fun l =>
    if JsStr.startsWith l (repoDir ++ "/") then
      JsStr.drop l (JsStr.strLength repoDir + 1)
    else l)

/-- The target path `writeFile` writes to (line 151): the naive string join
`repoDir + '/' + relativePath`, with no traversal check. -/
def writeFileTarget (repoDir relativePath : String) : String :=
  repoDir ++ "/" ++ relativePath

-- ── POSIX path resolution (filesystem semantics for the write target) ────────

/-- One step of POSIX path resolution: `""` and `"."` are skipped, `".."`
pops the last component (staying at root), anything else is pushed. -/
def resolveStep (acc : List String) (comp : String) : List String :=
  if comp = "" || comp = "." then acc
  else if comp = ".." then acc.dropLast
  else acc ++ [comp]

/-- Resolved component list of an absolute path: the directory components
after processing `.` and `..`, as the container filesystem resolves the
path `writeFile` hands to the sandbox. -/
def resolveComponents (p : String) : List String :=
  (JsStr.splitOnChar '/' p).foldl resolveStep []

/-- `target` resolves at or below `root` (component-wise). -/
def isUnderRoot (root target : String) : Bool :=
  (resolveComponents root).isPrefixOf (resolveComponents target)

-- ── services/aiService.ts : identifyRelevantFiles ────────────────────────────

/-- The extension test of the parse-failure fallback (line 116):
`/\.(ts|js|tsx|jsx|py)$/.test(f)`. -/
def hasSourceExt (f : String) : Bool :=
  JsStr.endsWith f ".ts" || JsStr.endsWith f ".js" || JsStr.endsWith f ".tsx"
    || JsStr.endsWith f ".jsx" || JsStr.endsWith f ".py"

/-- The file list placed in the ranking prompt (line 81):
`allFiles.slice(0, 300)`. -/
def rankingPromptFiles (allFiles : List String) : List String :=
  allFiles.take 300

/-- `identifyRelevantFiles` (`services/aiService.ts`, lines 76–118), after
the collaborator call. `parsedFiles` models `JSON.parse` of the extracted
JSON block followed by the `.files` access (both JS builtins): `some fs`
when a file array was recovered, `none` when the `try` block threw. On
success the result is capped at 5 (`slice(0, 5)`); on parse failure the
deterministic fallback takes the first 3 listed files with a common source
extension. Neither branch rethrows. -/
def identifyRelevantFiles (parsedFiles : Option (List String))
    (allFiles : List String) : List String :=
  match parsedFiles with
  | some fs => fs.take 5
  | none => (allFiles.filter hasSourceExt).take 3

-- ── services/issueProcessor.ts : the pipeline orchestrator ───────────────────

/-- One `issueStore.update(id, partial)` payload: the `Partial<Issue>`
argument of a store commit. A field is written iff it is `some`; no call
site of `runPipeline` ever writes `undefined` into a field, so clearing is
not representable in a commit. `sandboxLogs`, when present, carries the
full replacement list `existing ++ new` that `appendLogs` builds. -/
structure IssueUpdate where
  status : Option IssueStatus := none
  aiDecision : Option AiDecision := none
  aiReason : Option String := none
  sandboxId : Option String := none
  sandboxLogs : Option (List String) := none
  branchName : Option String := none
  prUrl : Option String := none
  patchSummary : Option String := none
  commitMessage : Option String := none
deriving DecidableEq, Repr

/-- `issueStore.update`: merge a partial into the stored record. -/
def applyUpdate (i : Issue) (u : IssueUpdate) : Issue :=
  { i with
    status := u.status.getD i.status
    aiDecision := (u.aiDecision.map some).getD i.aiDecision
    aiReason := (u.aiReason.map some).getD i.aiReason
    sandboxId := (u.sandboxId.map some).getD i.sandboxId
    sandboxLogs := u.sandboxLogs.getD i.sandboxLogs
    branchName := (u.branchName.map some).getD i.branchName
    prUrl := (u.prUrl.map some).getD i.prUrl
    patchSummary := (u.patchSummary.map some).getD i.patchSummary
    commitMessage := (u.commitMessage.map some).getD i.commitMessage }

/-- Observable events of one pipeline run, in program order: store commits,
sandbox lifecycle, the change-request call, and notification attempts. -/
inductive Ev
  | upd (u : IssueUpdate)
  | sbCreated (sandboxId : String)
  | sbDestroyed (sandboxId : String)
  | prAttempt (files : List (String × String)) (commitMessage : String)
  | emailManual
  | emailFix
deriving DecidableEq, Repr

/-- Oracle outcomes of every external call one pipeline run makes. -/
structure PipelineEnv where
  demoMode : Bool
  aiModel : Option String := none
  classifyResp : Except String String
  now : String := ""
  sandboxCreate : Except String String := .error "E2B_API_KEY is not set in environment"
  cloneRun : Except (Nat × String) Unit := .ok ()
  lsOutput : String := ""
  installRun : Except (Nat × String) Unit := .ok ()
  agentResult : AgentResult := { success := false, patch := "", commitMessage := "", filesChanged := [], logs := [] }
  readFileOutcome : String → Option String := fun _ => none
  prOutcome : Except String PrResult := .error "GITHUB_TOKEN missing"

/-- JS `Array.prototype.join('\n')`. -/
def joinLines : List String → String
  | [] => ""
  | [x] => x
  | x :: xs => x ++ "\n" ++ joinLines xs

/-- TS template interpolation of a possibly-`undefined` string. -/
def optErr : Option String → String
  | some e => e
  | none => "undefined"

/-- The placeholder file content built in DEMO_MODE (lines 103–118). -/
def demoFileContent (issue : Issue) (now : String) : String :=
  joinLines
    ["# Site Surgeon – Automated Fix", "",
     "**Issue:** " ++ issue.title,
     "**Severity:** " ++ (match issue.severity with
       | .critical => "critical" | .high => "high"
       | .medium => "medium" | .low => "low"),
     "**Date:** " ++ now, "",
     "## Description", issue.description, "",
     "## Note",
     "This fix was generated in DEMO_MODE. Connect real E2B and Anthropic credentials for AI-generated patches."]

/-- The `catch (sandboxErr)` block of `runPipeline` (lines 172–182): append
the error line, force `aiDecision` to `MANUAL`, attempt the manual email,
commit `notified`. -/
def sandboxCatch (st : Issue) (tr : List Ev) (msg : String) :
    Issue × List Ev :=
  let u1 : IssueUpdate :=
    { sandboxLogs := some (st.sandboxLogs ++ ["[error] Sandbox failed: " ++ msg]) }
  let st := applyUpdate st u1
  let u2 : IssueUpdate :=
    { aiDecision := some .MANUAL
      aiReason := some "Sandbox unavailable. Escalated for manual review." }
  let st := applyUpdate st u2
  let u3 : IssueUpdate := { status := some .notified }
  (applyUpdate st u3, tr ++ [.upd u1, .upd u2, .emailManual, .upd u3])

/-- Step 5 and step 6 of `runPipeline` (lines 185–222): call the
change-request collaborator; on a raise commit `failed`; otherwise commit
the terminal status (`merged` when auto-merged, else `pr_opened`) together
with the PR fields, then attempt the summary email. -/
def pipelineStep5 (env : PipelineEnv) (st : Issue) (tr : List Ev)
    (files : List (String × String)) (commitMessage patchSummary : String) :
    Issue × List Ev :=
  let tr := tr ++ [.prAttempt files commitMessage]
  match env.prOutcome with
  | .error _ =>
      let u : IssueUpdate := { status := some .failed }
      (applyUpdate st u, tr ++ [.upd u])
  | .ok pr =>
      let u : IssueUpdate :=
        { status := some (if pr.merged then .merged else .pr_opened)
          branchName := some pr.branchName
          prUrl := some pr.prUrl
          patchSummary := some patchSummary
          commitMessage := some commitMessage }
      (applyUpdate st u, tr ++ [.upd u, .emailFix])

/-- `runPipeline` (`services/issueProcessor.ts`, lines 52–222), transcribed
branch for branch. Returns the final stored issue record and the ordered
event trace of the run. The `try`/`catch` around `classifyIssue` (line
60–67) is dead in this model because the Gate is total; the `finally` at
line 168 is rendered by emitting `sbDestroyed` exactly where control
passes through it — in particular *after* the `notified` commit on the
agent-failure path, since the `return` at line 165 runs the `finally`
after the updates above it. -/
def runPipeline (env : PipelineEnv) (issue : Issue) : Issue × List Ev :=
  let u1 : IssueUpdate := { status := some .classifying }
  let st := applyUpdate issue u1
  let tr : List Ev := [.upd u1]
  let model := env.aiModel.getD "llama-3.3-70b-versatile"
  let classification := classificationGate env.classifyResp model
  let u2 : IssueUpdate :=
    { aiDecision := some classification.decision
      aiReason := some classification.reason }
  let st := applyUpdate st u2
  let tr := tr ++ [.upd u2]
  if classification.decision = .MANUAL then
    let u3 : IssueUpdate := { status := some .notified }
    (applyUpdate st u3, tr ++ [.emailManual, .upd u3])
  else
    let u3 : IssueUpdate := { status := some .sandboxing }
    let st := applyUpdate st u3
    let tr := tr ++ [.upd u3]
    let commitMessage := "fix: AI automated fix for \"" ++ issue.title ++ "\""
    let patchSummary := "Placeholder fix committed by Site Surgeon demo."
    if env.demoMode then
      let u4 : IssueUpdate :=
        { sandboxLogs := some (st.sandboxLogs ++ ["[demo] Sandbox skipped in DEMO_MODE"]) }
      let st := applyUpdate st u4
      let u5 : IssueUpdate := { status := some .fixing }
      let st := applyUpdate st u5
      let files := [(".site-surgeon/last-fix.md", demoFileContent issue env.now)]
      let commitMessage := "fix(demo): AI attempted fix for \"" ++ issue.title ++ "\""
      let patchSummary := "Demo mode: placeholder commit to show end-to-end pipeline."
      let u6 : IssueUpdate :=
        { sandboxLogs := some (st.sandboxLogs ++ ["[demo] Placeholder fix generated"]) }
      let st := applyUpdate st u6
      let tr := tr ++ [.upd u4, .upd u5, .upd u6]
      pipelineStep5 env st tr files commitMessage patchSummary
    else
      match createSandbox issue.repoUrl env.sandboxCreate with
      | .error e => sandboxCatch st tr e
      | .ok ctx =>
          let tr := tr ++ [.sbCreated ctx.sandboxId]
          let u4 : IssueUpdate := { sandboxId := some ctx.sandboxId }
          let st := applyUpdate st u4
          let tr := tr ++ [.upd u4]
          match cloneRepo ctx issue.repoUrl env.cloneRun with
          | .error msg =>
              -- the inner `finally` destroys the sandbox, then the outer
              -- `catch` runs the escalation
              let tr := tr ++ [.sbDestroyed ctx.sandboxId]
              sandboxCatch st tr msg
          | .ok ctx =>
            match installDependencies env.lsOutput env.installRun ctx.logs with
            | .error msg =>
                -- unreachable (`installDependencies` is total); a raise here
                -- would hit the inner `finally` and then the outer `catch`
                let tr := tr ++ [.sbDestroyed ctx.sandboxId]
                sandboxCatch st tr msg
            | .ok ctxLogs =>
              let u5 : IssueUpdate := { sandboxLogs := some (st.sandboxLogs ++ ctxLogs) }
              let st := applyUpdate st u5
              let u6 : IssueUpdate := { status := some .fixing }
              let st := applyUpdate st u6
              let ar := env.agentResult
              let u7 : IssueUpdate := { sandboxLogs := some (st.sandboxLogs ++ ar.logs) }
              let st := applyUpdate st u7
              let tr := tr ++ [.upd u5, .upd u6, .upd u7]
              if ar.success && decide (0 < ar.filesChanged.length) then
                let files := ar.filesChanged.filterMap
                  (fun p => (env.readFileOutcome p).map (fun c => (p, c)))
                let tr := tr ++ [.sbDestroyed ctx.sandboxId]
                pipelineStep5 env st tr files ar.commitMessage ar.patch
              else
                let u8 : IssueUpdate :=
                  { aiDecision := some .MANUAL
                    aiReason := some ("Agent failed: " ++ optErr ar.error) }
                let st := applyUpdate st u8
                let u9 : IssueUpdate := { status := some .notified }
                let st := applyUpdate st u9
                (st, tr ++ [.upd u8, .emailManual, .upd u9, .sbDestroyed ctx.sandboxId])

-- ── Trace observations ───────────────────────────────────────────────────────

/-- The event is a workspace creation. -/
def Ev.isCreate : Ev → Bool
  | .sbCreated _ => true
  | _ => false

/-- The event is a workspace destruction. -/
def Ev.isDestroy : Ev → Bool
  | .sbDestroyed _ => true
  | _ => false

/-- The event is the change-request collaborator call. -/
def Ev.isPrCall : Ev → Bool
  | .prAttempt _ _ => true
  | _ => false

/-- The event is a store commit writing `status := s`. -/
def Ev.commitsStatus (s : IssueStatus) : Ev → Bool
  | .upd u => u.status == some s
  | _ => false

/-- The event is a store commit writing one of the delivery-terminal
statuses `pr_opened`, `merged` or `failed`. -/
def Ev.commitsHardTerminal : Ev → Bool
  | .upd u =>
      match u.status with
      | some .pr_opened => true
      | some .merged => true
      | some .failed => true
      | _ => false
  | _ => false

/-- The event is a store commit writing one of the statuses claim C2
names: `pr_opened`, `notified` or `failed`. -/
def Ev.commitsTerminal : Ev → Bool
  | .upd u =>
      match u.status with
      | some .pr_opened => true
      | some .notified => true
      | some .failed => true
      | _ => false
  | _ => false

/-- The `aiDecision` value a commit writes, if any. -/
def Ev.decisionWrite : Ev → Option AiDecision
  | .upd u => u.aiDecision
  | _ => none

/-- The sequence of `aiDecision` values written over a run. -/
def decisionsWritten (tr : List Ev) : List AiDecision :=
  tr.filterMap Ev.decisionWrite

/-- Claim C2's ordering, as a trace check: no terminal-status commit occurs
before the first workspace destruction. -/
def destroyBeforeTerminals (tr : List Ev) : Bool :=
  (tr.takeWhile (fun e => !e.isDestroy)).all (fun e => !e.commitsTerminal)

/-- Weakened ordering: no `pr_opened`/`merged`/`failed` commit occurs before
the first workspace destruction. -/
def destroyBeforeHardTerminals (tr : List Ev) : Bool :=
  (tr.takeWhile (fun e => !e.isDestroy)).all (fun e => !e.commitsHardTerminal)

/-- Whether a change-request outcome is a raise. -/
def exceptIsError : Except String PrResult → Bool
  | .error _ => true
  | .ok _ => false

/-- The change-request calls a run makes: file set and commit message of
each `prAttempt` event, in order. -/
def prCallsOf (tr : List Ev) : List (List (String × String) × String) :=
  tr.filterMap (fun e => match e with
    | .prAttempt files cm => some (files, cm)
    | _ => none)

-- ── Concrete fixtures used by counterexamples and witnesses ──────────────────

/-- A minimal intake issue (the record `processIssue` builds). -/
def issueA : Issue :=
  { id := "i-1", title := "Btn label typo", description := "d",
    stepsToReproduce := "s", severity := .low,
    repoUrl := "https://github.com/o/r", status := .received }

/-- Run outcomes: classification says AUTOMATED, the sandbox and the clone
succeed, the Fix Synthesis Agent reports failure. -/
def envAgentFail : PipelineEnv :=
  { demoMode := false
    classifyResp := .ok "AUTOMATED"
    sandboxCreate := .ok "sb-1"
    cloneRun := .ok ()
    lsOutput := "package.json src"
    installRun := .ok ()
    agentResult := { success := false, patch := "", commitMessage := "",
                     filesChanged := [], logs := ["Agent error: boom"],
                     error := some "boom" }
    prOutcome := .ok { prUrl := "https://github.com/o/r/pull/7", prNumber := 7,
                       branchName := "fix/i-1", merged := false } }

/-- Run outcomes: the classification collaborator is unreachable, DEMO_MODE
is on, the change-request step succeeds without auto-merge. -/
def envClassifyDown : PipelineEnv :=
  { demoMode := true
    classifyResp := .error "connect ECONNREFUSED 127.0.0.1:443"
    now := "2026-01-01T00:00:00.000Z"
    prOutcome := .ok { prUrl := "https://github.com/o/r/pull/8", prNumber := 8,
                       branchName := "fix/i-1", merged := false } }

/-- Run outcomes: DEMO_MODE on, classification AUTOMATED, auto-merged PR. -/
def envDemoMerged : PipelineEnv :=
  { demoMode := true
    classifyResp := .ok "AUTOMATED"
    now := "2026-01-02T00:00:00.000Z"
    prOutcome := .ok { prUrl := "https://github.com/o/r/pull/9", prNumber := 9,
                       branchName := "fix/i-1", merged := true } }

/-- Run outcomes: DEMO_MODE on, classification AUTOMATED, the change-request
collaborator raises. -/
def envPrFail : PipelineEnv :=
  { demoMode := true
    classifyResp := .ok "AUTOMATED"
    now := "2026-01-03T00:00:00.000Z"
    prOutcome := .error "GitHub API unavailable" }

/-! ## Helper lemmas -/

/-- `installDependencies` never rejects: its `catch` converts a failing
install command into warning log lines. -/
theorem installDependencies_ne_error (lsOutput : String)
    (runResult : Except (Nat × String) Unit) (logs0 : List String)
    (msg : String) :
    installDependencies lsOutput runResult logs0 ≠ .error msg := by
  unfold installDependencies
  rcases detectInstallCmd lsOutput with _ | cmd
  · simp
  · rcases runResult with ⟨code, output⟩ | u <;> simp

/-- Folding `resolveStep` over components that contain no `".."` only ever
appends, so the starting component list stays a prefix of the result. -/
theorem foldl_resolveStep_keeps_root (cs : List String) :
    ∀ acc : List String, ".." ∉ cs → acc <+: cs.foldl resolveStep acc := by
  induction cs with
  | nil => intro acc _; exact List.prefix_refl acc
  | cons c cs ih =>
      intro acc h
      have hc : c ≠ ".." := fun hc => h (hc ▸ List.mem_cons_self c cs)
      have hcs : ".." ∉ cs := fun hm => h (List.mem_cons_of_mem c hm)
      simp only [List.foldl_cons]
      by_cases h0 : c = "" ∨ c = "."
      · have : resolveStep acc c = acc := by
          unfold resolveStep
          rcases h0 with h0 | h0 <;> simp [h0]
        rw [this]; exact ih acc hcs
      · have : resolveStep acc c = acc ++ [c] := by
          unfold resolveStep
          push_neg at h0
          simp [h0.1, h0.2, hc]
        rw [this]
        exact (List.prefix_append acc [c]).trans (ih (acc ++ [c]) hcs)

/-! ## Claim C1 -/

/-- Claim C1, counterexample. A transport failure of the classification
collaborator (connection refused) makes the Gate return decision
`AUTOMATED` with confidence 50 — not `MANUAL` with confidence 0 as the
claim states — and the pipeline then commits `sandboxing` instead of going
to `notified`. -/
theorem c1_counterexample :
    (classificationGate (.error "connect ECONNREFUSED 127.0.0.1:443")
        "llama-3.3-70b-versatile").decision = .AUTOMATED ∧
    (classificationGate (.error "connect ECONNREFUSED 127.0.0.1:443")
        "llama-3.3-70b-versatile").confidence = 50 ∧
    ¬((classificationGate (.error "connect ECONNREFUSED 127.0.0.1:443")
        "llama-3.3-70b-versatile").decision = .MANUAL ∧
      (classificationGate (.error "connect ECONNREFUSED 127.0.0.1:443")
        "llama-3.3-70b-versatile").confidence = 0) ∧
    (runPipeline envClassifyDown issueA).2.any
      (Ev.commitsStatus .sandboxing) = true ∧
    (runPipeline envClassifyDown issueA).1.status = .pr_opened := by
  decide

/-- Claim C1 (amended). The Gate never raises to its caller, but on a
transport failure it returns `AUTOMATED` with confidence 50 (defaulting
*toward* automation), so the issue proceeds to `sandboxing`; only a
successful response whose text does not start with `AUTOMATED` (the
unparseable/unexpected-reply case) yields `MANUAL`, and then with
confidence 85, never 0. -/
theorem c1_gate_defaults_toward_automation :
    (∀ (env : PipelineEnv) (issue : Issue) (e : String),
      env.classifyResp = .error e →
      (classificationGate env.classifyResp
          (env.aiModel.getD "llama-3.3-70b-versatile")).decision = .AUTOMATED ∧
      (classificationGate env.classifyResp
          (env.aiModel.getD "llama-3.3-70b-versatile")).confidence = 50 ∧
      (runPipeline env issue).2.any (Ev.commitsStatus .sandboxing) = true) ∧
    (∀ (s m : String),
      JsStr.startsWith (JsStr.toUpper (JsStr.trim s)) "AUTOMATED" = false →
      (classificationGate (.ok s) m).decision = .MANUAL ∧
      (classificationGate (.ok s) m).confidence = 85) := by
  constructor
  · intro env issue e h
    have hg : ∀ m, classificationGate env.classifyResp m =
        { decision := .AUTOMATED
          reason := "AI classifier unavailable; defaulting to automated pipeline."
          confidence := 50 } := by
      intro m; rw [h]; rfl
    refine ⟨by rw [hg], by rw [hg], ?_⟩
    simp only [runPipeline, pipelineStep5, sandboxCatch, hg]
    repeat' split
    all_goals simp_all [Ev.commitsStatus, List.any_append]
  · intro s m h
    unfold classificationGate aiServiceClassify aiClassifierClassify
    simp [h]

/-- Claim C1, witness for the amended theorem at concrete inputs. -/
theorem c1_gate_defaults_toward_automation_witness :
    ((classificationGate envClassifyDown.classifyResp
        (envClassifyDown.aiModel.getD "llama-3.3-70b-versatile")).decision
          = .AUTOMATED ∧
     (classificationGate envClassifyDown.classifyResp
        (envClassifyDown.aiModel.getD "llama-3.3-70b-versatile")).confidence
          = 50 ∧
     (runPipeline envClassifyDown issueA).2.any
        (Ev.commitsStatus .sandboxing) = true) ∧
    ((classificationGate (.ok "MANUAL: too risky") "m").decision = .MANUAL ∧
     (classificationGate (.ok "MANUAL: too risky") "m").confidence = 85) :=
  ⟨c1_gate_defaults_toward_automation.1 envClassifyDown issueA
      "connect ECONNREFUSED 127.0.0.1:443" rfl,
   c1_gate_defaults_toward_automation.2 "MANUAL: too risky" "m" (by decide)⟩

/-! ## Claim C2 -/

/-- Claim C2, counterexample. In the run where the sandbox is created and
the Agent reports failure, the `notified` transition is committed *before*
the workspace is destroyed: the `return` inside the `try` block runs its
updates first, and the `finally` destruction only afterwards. -/
theorem c2_counterexample :
    (runPipeline envAgentFail issueA).2.any Ev.isCreate = true ∧
    destroyBeforeTerminals (runPipeline envAgentFail issueA).2 = false := by
  decide

/-- Claim C2 (amended). Whenever a run creates a Workspace it also destroys
it before the run ends, and the destruction precedes every
`pr_opened`/`merged`/`failed` commit; only the `notified` commit of the
agent-failure escalation path can precede the destruction. -/
theorem c2_destroy_before_delivery (env : PipelineEnv) (issue : Issue)
    (h : ((runPipeline env issue).2.any Ev.isCreate) = true) :
    ((runPipeline env issue).2.any Ev.isDestroy) = true ∧
    destroyBeforeHardTerminals (runPipeline env issue).2 = true := by
  revert h
  simp only [runPipeline, pipelineStep5, sandboxCatch]
  repeat' split
  all_goals intro h
  all_goals simp_all [destroyBeforeHardTerminals, Ev.isCreate, Ev.isDestroy,
    Ev.commitsHardTerminal, List.any_append, List.takeWhile, List.all_append]

/-- Claim C2, witness for the amended theorem at a run that creates a
workspace. -/
theorem c2_destroy_before_delivery_witness :
    ((runPipeline envAgentFail issueA).2.any Ev.isDestroy) = true ∧
    destroyBeforeHardTerminals (runPipeline envAgentFail issueA).2 = true :=
  c2_destroy_before_delivery envAgentFail issueA (by decide)

/-! ## Claim C3 -/

/-- Claim C3 (confirmed). In real mode, when classification said AUTOMATED,
the sandbox was created and the clone succeeded, but the Agent reports
failure or returns zero changed files, the issue ends `notified`, its
`aiReason` carries the Agent's error, and the run neither commits
`pr_opened` nor calls the change-request collaborator. -/
theorem c3_agent_failure_escalates (env : PipelineEnv) (issue : Issue)
    (sbId : String)
    (hdemo : env.demoMode = false)
    (hcls : (classificationGate env.classifyResp
      (env.aiModel.getD "llama-3.3-70b-versatile")).decision = .AUTOMATED)
    (hsb : env.sandboxCreate = .ok sbId)
    (hclone : env.cloneRun = .ok ())
    (hagent : env.agentResult.success = false ∨ env.agentResult.filesChanged = []) :
    (runPipeline env issue).1.status = .notified ∧
    (runPipeline env issue).1.aiReason =
      some ("Agent failed: " ++ optErr env.agentResult.error) ∧
    (runPipeline env issue).2.any (Ev.commitsStatus .pr_opened) = false ∧
    (runPipeline env issue).2.any Ev.isPrCall = false := by
  simp only [runPipeline, pipelineStep5, sandboxCatch]
  repeat' split
  all_goals
    first
    | (exfalso; exact installDependencies_ne_error _ _ _ _ (by assumption))
    | simp_all [Ev.commitsStatus, Ev.isPrCall, List.any_append, applyUpdate,
        createSandbox, cloneRepo]

/-- Claim C3, witness at the agent-failure fixture. -/
theorem c3_agent_failure_escalates_witness :
    (runPipeline envAgentFail issueA).1.status = .notified ∧
    (runPipeline envAgentFail issueA).1.aiReason =
      some ("Agent failed: " ++ optErr envAgentFail.agentResult.error) ∧
    (runPipeline envAgentFail issueA).2.any (Ev.commitsStatus .pr_opened) = false ∧
    (runPipeline envAgentFail issueA).2.any Ev.isPrCall = false :=
  c3_agent_failure_escalates envAgentFail issueA "sb-1" rfl (by decide) rfl rfl
    (Or.inl rfl)

/-! ## Claim C4 -/

/-- Claim C4 (confirmed). A run ends `failed` exactly when it reached the
change-request call and that call raised — no other condition maps to
`failed` — and if the run created a Workspace, the workspace was destroyed
before any `pr_opened`/`merged`/`failed` commit, so none remains allocated
at the `failed` transition. -/
theorem c4_pr_raise_only_failed_path (env : PipelineEnv) (issue : Issue) :
    ((runPipeline env issue).1.status = .failed ↔
      ((runPipeline env issue).2.any Ev.isPrCall = true ∧
        exceptIsError env.prOutcome = true)) ∧
    ((runPipeline env issue).2.any Ev.isCreate = true →
      destroyBeforeHardTerminals (runPipeline env issue).2 = true) := by
  simp only [runPipeline, pipelineStep5, sandboxCatch]
  repeat' split
  all_goals simp_all [destroyBeforeHardTerminals, Ev.isCreate, Ev.isDestroy,
    Ev.commitsHardTerminal, Ev.isPrCall, List.any_append, List.takeWhile,
    List.all_append, applyUpdate, exceptIsError]

/-- Claim C4, witness at a run whose change-request call raises. -/
theorem c4_pr_raise_only_failed_path_witness :
    ((runPipeline envPrFail issueA).1.status = .failed ↔
      ((runPipeline envPrFail issueA).2.any Ev.isPrCall = true ∧
        exceptIsError envPrFail.prOutcome = true)) ∧
    ((runPipeline envPrFail issueA).2.any Ev.isCreate = true →
      destroyBeforeHardTerminals (runPipeline envPrFail issueA).2 = true) :=
  c4_pr_raise_only_failed_path envPrFail issueA

/-! ## Claim C5 -/

/-- Claim C5, counterexample. `writeFile` joins `repoDir + '/' + relative`
with no traversal check, so a relative path with `..` components resolves
outside the repository root: `../../escape.txt` lands at `/home/escape.txt`,
not under `/home/user/repo`. -/
theorem c5_counterexample :
    writeFileTarget "/home/user/repo" "../../escape.txt"
      = "/home/user/repo/../../escape.txt" ∧
    resolveComponents (writeFileTarget "/home/user/repo" "../../escape.txt")
      = ["home", "escape.txt"] ∧
    isUnderRoot "/home/user/repo"
      (writeFileTarget "/home/user/repo" "../../escape.txt") = false := by
  decide

/-- Claim C5 (amended). The write target is the naive join of the
repository root and the relative path; it stays under the root whenever the
relative path contains no `..` component, but nothing in `writeFile`
enforces this, and a path with `..` can escape. -/
theorem c5_no_dotdot_stays_under_root (root rel : String)
    (hsplit : JsStr.splitOnChar '/' (writeFileTarget root rel) =
      JsStr.splitOnChar '/' root ++ JsStr.splitOnChar '/' rel)
    (hrel : ".." ∉ JsStr.splitOnChar '/' rel) :
    isUnderRoot root (writeFileTarget root rel) = true := by
  unfold isUnderRoot
  rw [ List.isPrefixOf_iff_prefix]
  unfold resolveComponents
  rw [hsplit, List.foldl_append]
  exact foldl_resolveStep_keeps_root _ _ hrel

/-- Claim C5, witness for the amended theorem at a benign relative path. -/
theorem c5_no_dotdot_stays_under_root_witness :
    isUnderRoot "/home/user/repo"
      (writeFileTarget "/home/user/repo" "src/app.ts") = true :=
  c5_no_dotdot_stays_under_root "/home/user/repo" "src/app.ts" (by decide)
    (by decide)

/-! ## Claim C6 -/

/-- Claim C6, counterexample. In a single run with a single classification
call, `aiDecision` is first committed as `AUTOMATED` and then overwritten
to `MANUAL` by the agent-failure escalation — a later pipeline phase
changes an already-set `aiDecision` without any new classification call. -/
theorem c6_counterexample :
    decisionsWritten (runPipeline envAgentFail issueA).2
      = [.AUTOMATED, .MANUAL] ∧
    (runPipeline envAgentFail issueA).1.aiDecision = some .MANUAL := by
  decide

/-- Claim C6 (amended). A store commit can never clear an already-set
`aiDecision` (partials only overwrite), and in every run each `aiDecision`
write after the first — there is exactly one classification call per run —
writes `MANUAL` (the sandbox-failure and agent-failure escalations). -/
theorem c6_decision_never_cleared :
    (∀ (i : Issue) (u : IssueUpdate), i.aiDecision.isSome = true →
      (applyUpdate i u).aiDecision.isSome = true) ∧
    (∀ (env : PipelineEnv) (issue : Issue),
      ((decisionsWritten (runPipeline env issue).2).drop 1).all
        (fun d => d == .MANUAL) = true) := by
  constructor
  · intro i u h
    rcases hu : u.aiDecision with _ | d <;> simp [applyUpdate, hu, h]
  · intro env issue
    simp only [runPipeline, pipelineStep5, sandboxCatch]
    repeat' split
    all_goals simp_all [decisionsWritten, Ev.decisionWrite, List.filterMap_append]

/-- Claim C6, witness for the amended theorem at concrete inputs. -/
theorem c6_decision_never_cleared_witness :
    (applyUpdate { issueA with aiDecision := some AiDecision.AUTOMATED }
        { status := some .notified }).aiDecision.isSome = true ∧
    ((decisionsWritten (runPipeline envAgentFail issueA).2).drop 1).all
      (fun d => d == .MANUAL) = true :=
  ⟨c6_decision_never_cleared.1 { issueA with aiDecision := some AiDecision.AUTOMATED }
      { status := some .notified } (by decide),
   c6_decision_never_cleared.2 envAgentFail issueA⟩

/-! ## Claim C7 -/

/-- Claim C7 (confirmed). `installDependencies` is a no-op (one skip log
line, success) when no manifest is recognized; `package-lock.json` wins
outright, and any recognized JS/TS lockfile yields a JS install command
regardless of Python manifests; and the function always returns `.ok` —
a non-zero install exit is converted to a warning log line, never
propagated. -/
theorem c7_install_detection (lsOutput : String)
    (runResult : Except (Nat × String) Unit) (logs0 : List String) :
    (detectInstallCmd lsOutput = none →
      installDependencies lsOutput runResult logs0 =
        .ok (logs0 ++ ["[install] No package manager detected – skipping."])) ∧
    (JsStr.includes lsOutput "package-lock.json" = true →
      detectInstallCmd lsOutput = some "npm install --legacy-peer-deps") ∧
    ((JsStr.includes lsOutput "package-lock.json"
        || JsStr.includes lsOutput "yarn.lock"
        || JsStr.includes lsOutput "pnpm-lock.yaml") = true →
      ∃ c, detectInstallCmd lsOutput = some c ∧
        (c = "npm install --legacy-peer-deps" ∨
         c = "yarn install --non-interactive" ∨
         c = "pnpm install --frozen-lockfile")) ∧
    (∃ l, installDependencies lsOutput runResult logs0 = .ok l) := by
  refine ⟨?_, ?_, ?_, ?_⟩
  · intro h; unfold installDependencies; rw [h]
  · intro h; unfold detectInstallCmd; rw [h]; rfl
  · intro h
    unfold detectInstallCmd
    rcases (Bool.or_eq_true _ _).mp h with h' | hc
    · rcases (Bool.or_eq_true _ _).mp h' with hp | hy
      · exact ⟨_, by rw [hp]; rfl, Or.inl rfl⟩
      · by_cases hp : JsStr.includes lsOutput "package-lock.json" = true
        · exact ⟨_, by rw [hp]; rfl, Or.inl rfl⟩
        · refine ⟨_, ?_, Or.inr (Or.inl rfl)⟩
          simp only [Bool.not_eq_true] at hp
          rw [hp, hy]
          rfl
    · by_cases hp : JsStr.includes lsOutput "package-lock.json" = true
      · exact ⟨_, by rw [hp]; rfl, Or.inl rfl⟩
      · by_cases hy : JsStr.includes lsOutput "yarn.lock" = true
        · refine ⟨_, ?_, Or.inr (Or.inl rfl)⟩
          simp only [Bool.not_eq_true] at hp
          rw [hp, hy]; rfl
        · refine ⟨_, ?_, Or.inr (Or.inr rfl)⟩
          simp only [Bool.not_eq_true] at hp hy
          rw [hp, hy, hc]; rfl
  · unfold installDependencies
    rcases detectInstallCmd lsOutput with _ | cmd
    · exact ⟨_, rfl⟩
    · rcases runResult with ⟨code, output⟩ | u <;> exact ⟨_, rfl⟩

/-- Claim C7, witness: JS lockfile beats a Python manifest, a failing
install still returns `.ok`, and a manifest-free tree is a logged no-op. -/
theorem c7_install_detection_witness :
    detectInstallCmd "package-lock.json  requirements.txt"
      = some "npm install --legacy-peer-deps" ∧
    (∃ l, installDependencies "package-lock.json  requirements.txt"
      (.error (1, "npm ERR! peer dep")) [] = .ok l) ∧
    installDependencies "README.md  src" (.ok ()) [] =
      .ok ([] ++ ["[install] No package manager detected – skipping."]) :=
  ⟨(c7_install_detection "package-lock.json  requirements.txt"
      (.error (1, "npm ERR! peer dep")) []).2.1 (by decide),
   (c7_install_detection "package-lock.json  requirements.txt"
      (.error (1, "npm ERR! peer dep")) []).2.2.2,
   (c7_install_detection "README.md  src" (.ok ()) []).1 (by decide)⟩

/-! ## Claim C8 -/

/-- Claim C8 (confirmed). The Agent's candidate set from the file-ranking
response never exceeds 5 paths (`slice(0, 5)` on a parsed array, and a
3-element fallback), and when parsing fails the fallback is exactly the
first 3 listed files with a common source extension; both branches are
total, so this step never raises. -/
theorem c8_candidates_bounded (parsedFiles : Option (List String))
    (allFiles : List String) :
    (identifyRelevantFiles parsedFiles allFiles).length ≤ 5 ∧
    identifyRelevantFiles none allFiles =
      (allFiles.filter hasSourceExt).take 3 := by
  constructor
  · rcases parsedFiles with _ | fs
    · exact le_trans (List.length_take_le 3 _) (by norm_num)
    · exact List.length_take_le 5 fs
  · rfl

/-! ## Claim C9 -/

/-- Claim C9 (confirmed). The listing exposed to the Agent holds at most
200 paths and depends only on the first 200 traversal entries (`head -200`);
the prompt slice `take 300` therefore sends the whole listing; and any
candidate set drawn from the presented list — the collaborator contract —
only contains files from the first 200 traversal entries. -/
theorem c9_listing_truncated (repoDir : String) (findOut : List String)
    (cands : List String)
    (hsub : ∀ c ∈ cands, c ∈ rankingPromptFiles (listRepoFiles repoDir findOut)) :
    (listRepoFiles repoDir findOut).length ≤ 200 ∧
    rankingPromptFiles (listRepoFiles repoDir findOut) =
      listRepoFiles repoDir findOut ∧
    listRepoFiles repoDir findOut = listRepoFiles repoDir (findOut.take 200) ∧
    ∀ c ∈ cands, c ∈ listRepoFiles repoDir (findOut.take 200) := by
  have hlen : (listRepoFiles repoDir findOut).length ≤ 200 := by
    unfold listRepoFiles
    calc (((findOut.take 200).filter (fun l => l ≠ "")).map _).length
        = ((findOut.take 200).filter (fun l => l ≠ "")).length :=
          List.length_map _ _
      _ ≤ (findOut.take 200).length := List.length_filter_le _ _
      _ ≤ 200 := List.length_take_le 200 findOut
  have heq : rankingPromptFiles (listRepoFiles repoDir findOut) =
      listRepoFiles repoDir findOut := by
    unfold rankingPromptFiles
    exact List.take_of_length_le (le_trans hlen (by norm_num))
  have htr : listRepoFiles repoDir findOut =
      listRepoFiles repoDir (findOut.take 200) := by
    unfold listRepoFiles
    rw [List.take_take]
    norm_num
  refine ⟨hlen, heq, htr, ?_⟩
  intro c hc
  exact htr ▸ heq ▸ hsub c hc

/-- Claim C9, witness at a two-file traversal. -/
theorem c9_listing_truncated_witness :
    (listRepoFiles "/home/user/r"
        ["/home/user/r/a.ts", "/home/user/r/docs/b.md"]).length ≤ 200 ∧
    rankingPromptFiles (listRepoFiles "/home/user/r"
        ["/home/user/r/a.ts", "/home/user/r/docs/b.md"]) =
      listRepoFiles "/home/user/r"
        ["/home/user/r/a.ts", "/home/user/r/docs/b.md"] ∧
    listRepoFiles "/home/user/r" ["/home/user/r/a.ts", "/home/user/r/docs/b.md"]
      = listRepoFiles "/home/user/r"
        (["/home/user/r/a.ts", "/home/user/r/docs/b.md"].take 200) ∧
    ∀ c ∈ ["a.ts"], c ∈ listRepoFiles "/home/user/r"
        (["/home/user/r/a.ts", "/home/user/r/docs/b.md"].take 200) :=
  c9_listing_truncated "/home/user/r"
    ["/home/user/r/a.ts", "/home/user/r/docs/b.md"] ["a.ts"] (by decide)

/-! ## Claim C10 -/

/-- Claim C10 (confirmed). With DEMO_MODE on and an AUTOMATED
classification, the run creates and destroys no Workspace, still commits
`sandboxing` and `fixing`, makes exactly one change-request call whose file
set is exactly the placeholder `.site-surgeon/last-fix.md`, and — when the
change-request collaborator succeeds — ends `merged` or `pr_opened`
without any clone or generated fix. -/
theorem c10_demo_mode_pipeline (env : PipelineEnv) (issue : Issue)
    (pr : PrResult)
    (hdemo : env.demoMode = true)
    (hcls : env.classifyResp = .ok "AUTOMATED")
    (hpr : env.prOutcome = .ok pr) :
    (runPipeline env issue).2.any Ev.isCreate = false ∧
    (runPipeline env issue).2.any Ev.isDestroy = false ∧
    (runPipeline env issue).2.any (Ev.commitsStatus .sandboxing) = true ∧
    (runPipeline env issue).2.any (Ev.commitsStatus .fixing) = true ∧
    prCallsOf (runPipeline env issue).2 =
      [([(".site-surgeon/last-fix.md", demoFileContent issue env.now)],
        "fix(demo): AI attempted fix for \"" ++ issue.title ++ "\"")] ∧
    (runPipeline env issue).1.status =
      (if pr.merged then .merged else .pr_opened) := by
  have hg : ∀ m, (classificationGate env.classifyResp m).decision = .AUTOMATED := by
    intro m; rw [hcls]; rfl
  simp only [runPipeline, pipelineStep5, sandboxCatch, hg, hdemo, hpr]
  repeat' split
  all_goals simp_all [Ev.commitsStatus, Ev.isCreate, Ev.isDestroy, prCallsOf,
    List.any_append, applyUpdate, List.filterMap_append]

/-- Claim C10, witness at the auto-merged demo fixture. -/
theorem c10_demo_mode_pipeline_witness :
    (runPipeline envDemoMerged issueA).2.any Ev.isCreate = false ∧
    (runPipeline envDemoMerged issueA).2.any Ev.isDestroy = false ∧
    (runPipeline envDemoMerged issueA).2.any
      (Ev.commitsStatus .sandboxing) = true ∧
    (runPipeline envDemoMerged issueA).2.any
      (Ev.commitsStatus .fixing) = true ∧
    prCallsOf (runPipeline envDemoMerged issueA).2 =
      [([(".site-surgeon/last-fix.md",
          demoFileContent issueA envDemoMerged.now)],
        "fix(demo): AI attempted fix for \"" ++ issueA.title ++ "\"")] ∧
    (runPipeline envDemoMerged issueA).1.status =
      (if ({ prUrl := "https://github.com/o/r/pull/9", prNumber := 9,
             branchName := "fix/i-1", merged := true } : PrResult).merged
        then .merged else .pr_opened) :=
  c10_demo_mode_pipeline envDemoMerged issueA
    { prUrl := "https://github.com/o/r/pull/9", prNumber := 9,
      branchName := "fix/i-1", merged := true } rfl rfl rfl

end SiteSurgeon
